import Mathlib

/-!
Shallow embedding of the shelvery RDS backup adapter
(src/shelvery/rds_backup.py) and proofs about the spec's claims.

The boto3 RDS client is modelled as injected capabilities: read calls are
function parameters (describe-by-id, describe-automated, list-tags, paginated
describe endpoints), and mutation calls are recorded in a trace of
RdsCall values. Python dicts become association lists, Python exceptions
become the RdsError kinds, and unbounded while loops take a fuel argument
(a result of none means the loop did not finish within the given fuel).
-/

namespace Shelvery

/-- A DB snapshot as returned by the provider's describe-snapshots call:
exactly the response fields rds_backup.py reads (DBSnapshotIdentifier,
DBSnapshotArn, Status, SnapshotCreateTime). -/
structure Snapshot where
  id : String
  arn : String
  status : String
  createTime : Nat
  deriving Repr, DecidableEq

/-- A DB instance as returned by describe-db-instances: the fields read by
get_entities_to_backup (DBInstanceIdentifier, DBInstanceArn,
InstanceCreateTime). -/
structure DbInstance where
  id : String
  arn : String
  createTime : Nat
  deriving Repr, DecidableEq

/-- Modelled from the spec: EntityResource (entity_resource.py is not under
src/) is a plain descriptor of a backupable source entity: provider id,
region, creation timestamp and its tags; tags is the Python dict as an
association list. -/
structure EntityResource where
  entity_id : String
  region : String
  date_created : Nat
  tags : List (String × String)
  deriving Repr, DecidableEq

/-- Modelled from the spec: BackupResource (backup_resource.py is not under
src/) is a plain descriptor of a snapshot artifact: the engine-generated
name, the source entity id, the provider-assigned backup_id and the
provenance tags. -/
structure BackupResource where
  name : String
  entity_id : String
  backup_id : String
  tags : List (String × String)
  deriving Repr, DecidableEq

/-- Modelled from the spec: BackupResource.BACKUP_MARKER_TAG (defined in the
missing backup_resource.py); the spec names the full artifact marker key
"{tag_prefix}:backup-marker", so the suffix constant is "backup-marker". -/
def BACKUP_MARKER_TAG : String := "backup-marker"

/-- Modelled from the spec: BackupResource.construct (defined in the missing
backup_resource.py) reconstructs a backup descriptor from provider catalog
state alone: the artifact's backup_id and its provenance tag mapping,
interpreted under the given tag namespace. The spec's data model specifies
backup_id and tags for reconstruction; name and entity_id are part of the
provenance encoding it leaves unspecified, so they are left empty here. -/
def BackupResource.construct (tag_namespace : String) (backup_id : String)
    (tags : List (String × String)) : BackupResource :=
  { name := "", entity_id := "", backup_id := backup_id, tags := tags }

/-- Modelled from the spec: RuntimeConfig.RDS_CREATE_SNAPSHOT
(runtime_config.py is not under src/) - the mode value selecting a fresh
on-demand snapshot of the live entity. -/
def RDS_CREATE_SNAPSHOT : String := "RDS_CREATE_SNAPSHOT"

/-- Modelled from the spec: RuntimeConfig.RDS_COPY_AUTOMATED_SNAPSHOT - the
mode value selecting derivation from the newest automated snapshot. -/
def RDS_COPY_AUTOMATED_SNAPSHOT : String := "RDS_COPY_AUTOMATED_SNAPSHOT"

/-- Failure outcomes of the adapter, as shallow error kinds:
dbSnapshotNotFound models the provider's DBSnapshotNotFoundFault raised by
describe_db_snapshots(DBSnapshotIdentifier=...) for an id that does not
resolve; indexError models Python's IndexError from indexing [0] into an
empty list; keyError models Python's KeyError from a dict lookup of a
missing key; configurationError models the exception backup_resource raises
for an unsupported rds backup mode (its message points at the
rds_backup_mode configuration option). -/
inductive RdsError where
  | dbSnapshotNotFound (id : String)
  | indexError
  | keyError (key : String)
  | configurationError
  deriving Repr, DecidableEq

/-- Provider mutation calls issued by the adapter, recorded as a trace in the
order they are made. -/
inductive RdsCall where
  | createDbSnapshot (dbSnapshotIdentifier dbInstanceIdentifier : String)
  | copyDbSnapshot (sourceDbSnapshotIdentifier targetDbSnapshotIdentifier : String)
      (copyTags : Bool)
  | deleteDbSnapshot (dbInstanceIdentifier : String)
  | addTagsToResource (resourceName : String) (tags : List (String × String))
  | modifyDbSnapshotAttribute (dbSnapshotIdentifier attributeName valueToAdd : String)
  deriving Repr, DecidableEq

/-- Python dict built from a list of key/value pairs (the dict(map(...))
conversions in the source): the key set is preserved, each key appears once,
and for a duplicated key the last value wins. Python dict equality is
insertion-order-insensitive, so the association list here represents the
mapping itself. -/
def dictOf : List (String × String) → List (String × String)
  | [] => []
  | (k, v) :: rest =>
    if rest.any (fun p => p.1 == k) then dictOf rest
    else (k, v) :: dictOf rest

/-- Insert into a descending-sorted list, placing the inserted element before
existing elements with an equal key: together with sortDesc this models
Python's stable sorted(..., key=SnapshotCreateTime, reverse=True). -/
def insertDesc (x : Snapshot) : List Snapshot → List Snapshot
  | [] => [x]
  | y :: ys =>
    if y.createTime ≤ x.createTime then x :: y :: ys else y :: insertDesc x ys

/-- Stable descending sort by SnapshotCreateTime, as used by
backup_from_latest_automated. -/
def sortDesc : List Snapshot → List Snapshot
  | [] => []
  | x :: xs => insertDesc x (sortDesc xs)

/-- is_backup_available: describe the snapshot by backup_id and report whether
DBSnapshots[0].Status == 'available'; the [0] access has no emptiness
check. -/
def is_backup_available (describeById : String → Except RdsError (List Snapshot))
    (backup_region backup_id : String) : Except RdsError Bool :=
  match describeById backup_id with
  | .error e => .error e
  | .ok snapshots =>
    match snapshots with
    | [] => .error .indexError
    | s :: _ => .ok (s.status == "available")

/-- backup_from_instance: create_db_snapshot(DBSnapshotIdentifier=name,
DBInstanceIdentifier=entity_id), then set backup_id := name and return the
descriptor together with the trace of provider mutations. -/
def backup_from_instance (backup_resource : BackupResource) :
    Except RdsError BackupResource × List RdsCall :=
  (.ok { backup_resource with backup_id := backup_resource.name },
   [.createDbSnapshot backup_resource.name backup_resource.entity_id])

/-- backup_from_latest_automated: list the entity's automated snapshots
(describe_db_snapshots(DBInstanceIdentifier=entity_id,
SnapshotType='automated')), sort them by SnapshotCreateTime descending with
Python's stable sort, take element [0] (an IndexError on an empty list - the
TODO in the source), copy it under the request's name with CopyTags=False,
then set backup_id := name. -/
def backup_from_latest_automated (describeAuto : String → List Snapshot)
    (backup_resource : BackupResource) :
    Except RdsError BackupResource × List RdsCall :=
  let auto_snapshots := describeAuto backup_resource.entity_id
  match sortDesc auto_snapshots with
  | [] => (.error .indexError, [])
  | automated :: _ =>
    (.ok { backup_resource with backup_id := backup_resource.name },
     [.copyDbSnapshot automated.id backup_resource.name false])

/-- backup_resource: dispatch on the configured rds backup mode; any mode
other than the two recognized values raises the configuration error without
touching the provider. -/
def backup_resource (rds_mode : String) (describeAuto : String → List Snapshot)
    (request : BackupResource) : Except RdsError BackupResource × List RdsCall :=
  if rds_mode == RDS_CREATE_SNAPSHOT then backup_from_instance request
  else if rds_mode == RDS_COPY_AUTOMATED_SNAPSHOT then
    backup_from_latest_automated describeAuto request
  else (.error .configurationError, [])

/-- delete_backup, as written in the source: it issues delete_db_snapshot with
DBInstanceIdentifier=backup_resource.entity_id - the source entity's
identifier, not the backup's own backup_id. -/
def delete_backup (backup_resource : BackupResource) : List RdsCall :=
  [.deleteDbSnapshot backup_resource.entity_id]

/-- tag_backup_resource: resolve the snapshot by backup_id, take
DBSnapshots[0] (no emptiness check), and add the descriptor's tags -
rebuilt as a Key/Value list from the tags dict - to its ARN. -/
def tag_backup_resource (describeById : String → Except RdsError (List Snapshot))
    (backup_resource : BackupResource) : Except RdsError Unit × List RdsCall :=
  match describeById backup_resource.backup_id with
  | .error e => (.error e, [])
  | .ok snapshots =>
    match snapshots with
    | [] => (.error .indexError, [])
    | snapshot :: _ =>
      (.ok (),
       [.addTagsToResource snapshot.arn
         (backup_resource.tags.map
           (fun p => (p.1, (backup_resource.tags.lookup p.1).getD p.2)))])

/-- copy_backup_to_region: resolve the snapshot locally by backup_id, take
DBSnapshots[0] (no emptiness check), copy its ARN into the target region
under the same identifier with CopyTags=False, and return the id. -/
def copy_backup_to_region (describeById : String → Except RdsError (List Snapshot))
    (backup_id region : String) : Except RdsError String × List RdsCall :=
  match describeById backup_id with
  | .error e => (.error e, [])
  | .ok snapshots =>
    match snapshots with
    | [] => (.error .indexError, [])
    | snapshot :: _ =>
      (.ok backup_id, [.copyDbSnapshot snapshot.arn backup_id false])

/-- share_backup_with_account: grant cross-account restore permission by
modifying the snapshot's restore attribute. -/
def share_backup_with_account (backup_region backup_id aws_account_id : String) :
    List RdsCall :=
  [.modifyDbSnapshotAttribute backup_id "restore" aws_account_id]

/-- get_backup_resource: resolve the snapshot by backup_id, take
DBSnapshots[0], list the tags of its ARN, build the tags dict and
reconstruct the descriptor; the d_tags['shelvery:tag_name'] dict access
raises KeyError when that provenance tag is absent. -/
def get_backup_resource (describeById : String → Except RdsError (List Snapshot))
    (listTags : String → List (String × String))
    (backup_region backup_id : String) : Except RdsError BackupResource :=
  match describeById backup_id with
  | .error e => .error e
  | .ok snapshots =>
    match snapshots with
    | [] => .error .indexError
    | snapshot :: _ =>
      let d_tags := dictOf (listTags snapshot.arn)
      match d_tags.lookup "shelvery:tag_name" with
      | none => .error (.keyError "shelvery:tag_name")
      | some tag_name => .ok (BackupResource.construct tag_name backup_id d_tags)

/-- One page of a paginated provider list call: the returned items plus an
optional continuation Marker. -/
structure Page (α : Type) where
  items : List α
  marker : Option Nat
  deriving Repr, DecidableEq

/-- A paginated provider list endpoint over a fixed sequence of pages: a call
without a Marker returns page 0; a call with Marker k returns page k; the
response carries Marker k+1 while further pages remain. -/
def pagedDescribe (pages : List (List α)) (marker : Option Nat) : Page α :=
  let k := marker.getD 0
  { items := pages.getD k []
    marker := if k + 1 < pages.length then some (k + 1) else none }

/-- The while loop of get_all_instances: while the current response holds a
Marker, re-issue describe_db_instances forwarding that Marker and extend the
accumulator. -/
def getAllInstancesLoop (describe : Option Nat → Page DbInstance) (fuel : Nat)
    (temp_instances : Page DbInstance) (db_instances : List DbInstance) :
    Option (List DbInstance) :=
  match temp_instances.marker with
  | none => some db_instances
  | some m =>
    match fuel with
    | 0 => none
    | fuel' + 1 =>
      let t := describe (some m)
      getAllInstancesLoop describe fuel' t (db_instances ++ t.items)

/-- get_all_instances: issue the first describe_db_instances call, then drain
the remaining pages forwarding the Marker on every subsequent request. -/
def get_all_instances (describe : Option Nat → Page DbInstance) (fuel : Nat) :
    Option (List DbInstance) :=
  let temp_instances := describe none
  getAllInstancesLoop describe fuel temp_instances temp_instances.items

/-- get_entities_to_backup: drain all instances, then for each instance fetch
its tags, build the tags dict, and keep it as an EntityResource exactly when
the marker tag name is a key of that dict. -/
def get_entities_to_backup (describe : Option Nat → Page DbInstance)
    (listTags : String → List (String × String)) (local_region : String)
    (fuel : Nat) (tag_name : String) : Option (List EntityResource) :=
  match get_all_instances describe fuel with
  | none => none
  | some db_instances =>
    some (db_instances.filterMap (fun inst =>
      let d_tags := dictOf (listTags inst.arn)
      if d_tags.any (fun p => p.1 == tag_name) then
        some { entity_id := inst.id, region := local_region,
               date_created := inst.createTime, tags := d_tags }
      else none))

/-- The while loop of collect_all_snapshots exactly as written in the source:
while the current response holds a Marker, re-issue describe_db_snapshots
WITHOUT forwarding the Marker (the call is re-issued with no arguments) and
extend the accumulator. -/
def collectAllSnapshotsLoop (describe : Option Nat → Page Snapshot) (fuel : Nat)
    (tmp_snapshots : Page Snapshot) (all_snapshots : List Snapshot) :
    Option (List Snapshot) :=
  match tmp_snapshots.marker with
  | none => some all_snapshots
  | some _ =>
    match fuel with
    | 0 => none
    | fuel' + 1 =>
      let t := describe none
      collectAllSnapshotsLoop describe fuel' t (all_snapshots ++ t.items)

/-- collect_all_snapshots as in the source: the first unmarked call, then the
loop that keeps re-issuing the unmarked first call. -/
def collect_all_snapshots (describe : Option Nat → Page Snapshot) (fuel : Nat) :
    Option (List Snapshot) :=
  let tmp_snapshots := describe none
  collectAllSnapshotsLoop describe fuel tmp_snapshots tmp_snapshots.items

/-- get_shelvery_backups_only: keep the snapshots whose tag dict has the
"{prefix}:backup-marker" key, reconstructing a BackupResource for each. -/
def get_shelvery_backups_only (all_snapshots : List Snapshot)
    (backup_tag_pfx : String) (listTags : String → List (String × String)) :
    List BackupResource :=
  let marker_tag := backup_tag_pfx ++ ":" ++ BACKUP_MARKER_TAG
  all_snapshots.filterMap (fun snap =>
    let d_tags := dictOf (listTags snap.arn)
    if d_tags.any (fun p => p.1 == marker_tag) then
      some (BackupResource.construct backup_tag_pfx snap.id d_tags)
    else none)

/-- get_existing_backups: collect all snapshots through the source's
pagination loop, then filter to shelvery-tagged ones. -/
def get_existing_backups (describe : Option Nat → Page Snapshot)
    (listTags : String → List (String × String)) (fuel : Nat)
    (backup_tag_pfx : String) : Option (List BackupResource) :=
  match collect_all_snapshots describe fuel with
  | none => none
  | some all_snapshots =>
    some (get_shelvery_backups_only all_snapshots backup_tag_pfx listTags)

/-- The provider's in-region catalog state: the snapshots and the per-ARN tag
store. -/
structure RdsState where
  snapshots : List Snapshot
  resourceTags : String → List (String × String)

/-- describe_db_snapshots(DBSnapshotIdentifier=id) against a catalog: the
provider raises DBSnapshotNotFoundFault when the id does not resolve,
otherwise it returns the matching snapshots. -/
def awsDescribeById (st : RdsState) (id : String) :
    Except RdsError (List Snapshot) :=
  match st.snapshots.filter (fun s => s.id == id) with
  | [] => .error (.dbSnapshotNotFound id)
  | s :: rest => .ok (s :: rest)

/-- list_tags_for_resource against the catalog. -/
def awsListTags (st : RdsState) (arn : String) : List (String × String) :=
  st.resourceTags arn

/-- add_tags_to_resource semantics for one tag: overwrite the value if the key
already exists on the resource, otherwise append the tag. -/
def upsertTag (existing : List (String × String)) (t : String × String) :
    List (String × String) :=
  if existing.any (fun p => p.1 == t.1) then
    existing.map (fun p => if p.1 == t.1 then (p.1, t.2) else p)
  else existing ++ [t]

/-- Effect of a recorded mutation call on the catalog. Only
add_tags_to_resource is observed by the reconstruction claims; the
snapshot-catalog effects of create/copy/delete are outside them and left as
the identity. -/
def applyCall (st : RdsState) : RdsCall → RdsState
  | .addTagsToResource arn tags =>
    { st with resourceTags := fun a =>
        if a == arn then tags.foldl upsertTag (st.resourceTags a)
        else st.resourceTags a }
  | _ => st

/-- Apply a trace of mutation calls in order. -/
def applyCalls (st : RdsState) (calls : List RdsCall) : RdsState :=
  calls.foldl applyCall st

/-- Concrete request used to exercise backup_resource on an entity with no
automated snapshots. -/
def noAutoRequest : BackupResource :=
  { name := "db-1-20240101", entity_id := "db-1", backup_id := "", tags := [] }

/-- Concrete backup descriptor whose backup_id differs from its source
entity's id, used to exercise delete_backup. -/
def deleteExample : BackupResource :=
  { name := "db-1-20240101", entity_id := "db-1",
    backup_id := "db-1-20240101", tags := [] }

/-- Concrete request used to exercise backup_resource on an unknown mode. -/
def unknownModeRequest : BackupResource :=
  { name := "db-2-20240101", entity_id := "db-2", backup_id := "", tags := [] }

/-- A concrete snapshot catalog split across two provider pages, used to
exercise collect_all_snapshots' pagination loop. -/
def twoPageCatalog : List (List Snapshot) :=
  [[⟨"snap-page-1", "arn-page-1", "available", 1⟩],
   [⟨"snap-page-2", "arn-page-2", "available", 2⟩]]

/-- A concrete automated-snapshot listing with two candidates sharing the
maximal creation timestamp, used to exercise the tie-break of
backup_from_latest_automated. -/
def tieAuto : String → List Snapshot := fun _ =>
  [⟨"auto-1", "arn-auto-1", "available", 7⟩,
   ⟨"auto-2", "arn-auto-2", "available", 7⟩]

/-- Concrete request used with tieAuto. -/
def tieRequest : BackupResource :=
  { name := "db-1-copy", entity_id := "db-1", backup_id := "", tags := [] }

/-- Concrete snapshot for the tag/get round trip. -/
def rtSnap : Snapshot := ⟨"bk-1", "arn-bk-1", "available", 5⟩

/-- Concrete catalog holding rtSnap with no tags yet. -/
def rtState : RdsState := { snapshots := [rtSnap], resourceTags := fun _ => [] }

/-- Concrete descriptor whose tags carry the required provenance entries. -/
def rtBackup : BackupResource :=
  { name := "bk-1", entity_id := "db-1", backup_id := "bk-1",
    tags := [("shelvery:tag_name", "rds"), ("shelvery:backup-marker", "true")] }

/-- Concrete catalog whose only artifact lacks the provenance tag. -/
def errState : RdsState :=
  { snapshots := [⟨"bk-2", "arn-bk-2", "available", 1⟩],
    resourceTags := fun _ => [("unrelated", "x")] }

/-- Concrete snapshot resolving the id used in the head-access witness. -/
def availSnap : Snapshot := ⟨"bk-3", "arn-bk-3", "available", 0⟩

/-- Concrete descriptor whose backup_id resolves to availSnap. -/
def c10Backup : BackupResource :=
  { name := "bk-3", entity_id := "db-3", backup_id := "bk-3", tags := [] }

/-- Helper: insertDesc never returns the empty list. -/
theorem insertDesc_ne_nil (x : Snapshot) (l : List Snapshot) :
    insertDesc x l ≠ [] := by
  cases l with
  | nil => simp [insertDesc]
  | cons y ys =>
    simp only [insertDesc]
    split <;> simp

/-- Helper: sortDesc only maps the empty list to the empty list. -/
theorem sortDesc_eq_nil {l : List Snapshot} (h : sortDesc l = []) : l = [] := by
  cases l with
  | nil => rfl
  | cons x xs => exact absurd h (insertDesc_ne_nil x (sortDesc xs))

/-- Helper: the head of the stable descending sort is the first element of the
input attaining the maximal createTime: every input element is bounded by it,
and every input element strictly before it is strictly smaller. -/
theorem sortDesc_head_first_max :
    ∀ (l : List Snapshot) (s : Snapshot) (t : List Snapshot),
      sortDesc l = s :: t →
      ∃ l1 l2, l = l1 ++ s :: l2
        ∧ (∀ x ∈ l, x.createTime ≤ s.createTime)
        ∧ (∀ x ∈ l1, x.createTime < s.createTime) := by
  intro l
  induction l with
  | nil => intro s t h; simp [sortDesc] at h
  | cons a xs ih =>
    intro s t h
    rw [sortDesc] at h
    cases hxs : sortDesc xs with
    | nil =>
      have hxsnil : xs = [] := sortDesc_eq_nil hxs
      rw [hxs] at h
      simp only [insertDesc] at h
      obtain ⟨hs, -⟩ := List.cons.inj h
      subst hxsnil
      subst hs
      exact ⟨[], [], rfl, by simp, by simp⟩
    | cons s' r' =>
      rw [hxs] at h
      rw [insertDesc] at h
      by_cases hc : s'.createTime ≤ a.createTime
      · rw [if_pos hc] at h
        obtain ⟨hs, -⟩ := List.cons.inj h
        subst hs
        obtain ⟨l1, l2, hsplit, hbound, -⟩ := ih s' r' hxs
        refine ⟨[], xs, rfl, ?_, by simp⟩
        intro x hx
        rcases List.mem_cons.mp hx with hxa | hxxs
        · subst hxa; exact Nat.le_refl _
        · exact Nat.le_trans (hbound x hxxs) hc
      · rw [if_neg hc] at h
        obtain ⟨hs, -⟩ := List.cons.inj h
        subst hs
        obtain ⟨l1, l2, hsplit, hbound, hstrict⟩ := ih s' r' hxs
        have ha : a.createTime < s'.createTime := Nat.lt_of_not_le hc
        refine ⟨a :: l1, l2, ?_, ?_, ?_⟩
        · rw [hsplit]; rfl
        · intro x hx
          rcases List.mem_cons.mp hx with hxa | hxxs
          · subst hxa; exact Nat.le_of_lt ha
          · exact hbound x hxxs
        · intro x hx
          rcases List.mem_cons.mp hx with hxa | hxl1
          · subst hxa; exact ha
          · exact hstrict x hxl1

/-- Helper: on the two-page catalog, the source's pagination loop - which
re-issues the unmarked first call - never terminates: the response to the
unmarked call always carries Marker 1 again, for every fuel. -/
theorem collectLoop_two_pages_stuck :
    ∀ (fuel : Nat) (acc : List Snapshot),
      collectAllSnapshotsLoop (pagedDescribe twoPageCatalog) fuel
        (pagedDescribe twoPageCatalog none) acc = none := by
  intro fuel
  induction fuel with
  | zero => intro acc; rfl
  | succ f ih =>
    intro acc
    have hstep :
        collectAllSnapshotsLoop (pagedDescribe twoPageCatalog) (f + 1)
            (pagedDescribe twoPageCatalog none) acc
          = collectAllSnapshotsLoop (pagedDescribe twoPageCatalog) f
              (pagedDescribe twoPageCatalog none)
              (acc ++ (pagedDescribe twoPageCatalog none).items) := rfl
    rw [hstep]
    exact ih _

/-- C1 (code bug): on a catalog split across two pages, collect_all_snapshots
never drains pagination: the loop re-issues the describe-snapshots call
without forwarding the continuation marker, so it refetches page one forever
(for every fuel bound it fails to finish), the second page is never
accumulated, and get_existing_backups never produces its filtered result. -/
theorem collect_all_snapshots_never_drains_multipage :
    ∀ fuel : Nat,
      collect_all_snapshots (pagedDescribe twoPageCatalog) fuel = none
      ∧ get_existing_backups (pagedDescribe twoPageCatalog)
          (fun _ => [("shelvery:backup-marker", "true")]) fuel "shelvery"
          = none := by
  intro fuel
  have h1 : collect_all_snapshots (pagedDescribe twoPageCatalog) fuel = none :=
    collectLoop_two_pages_stuck fuel _
  exact ⟨h1, by simp [get_existing_backups, h1]⟩

/-- C6: in COPY_AUTOMATED_SNAPSHOT mode (backup_from_latest_automated), the
snapshot chosen as copy source attains the maximal SnapshotCreateTime among
the candidates returned for the entity, the selection is stable - it is the
first candidate attaining that maximum, every earlier candidate being
strictly older - and the copy targets the request's deterministic name. -/
theorem backup_from_latest_automated_selects_latest
    (describeAuto : String → List Snapshot) (b : BackupResource)
    (hne : describeAuto b.entity_id ≠ []) :
    ∃ chosen l1 l2,
      backup_from_latest_automated describeAuto b
        = (.ok { b with backup_id := b.name },
           [.copyDbSnapshot chosen.id b.name false])
      ∧ describeAuto b.entity_id = l1 ++ chosen :: l2
      ∧ (∀ x ∈ describeAuto b.entity_id, x.createTime ≤ chosen.createTime)
      ∧ (∀ x ∈ l1, x.createTime < chosen.createTime) := by
  cases hs : sortDesc (describeAuto b.entity_id) with
  | nil => exact absurd (sortDesc_eq_nil hs) hne
  | cons s t =>
    obtain ⟨l1, l2, hsplit, hbound, hstrict⟩ :=
      sortDesc_head_first_max _ s t hs
    refine ⟨s, l1, l2, ?_, hsplit, hbound, hstrict⟩
    simp only [backup_from_latest_automated]
    rw [hs]

/-- Witness for C6 on a concrete two-candidate tie. -/
theorem backup_from_latest_automated_selects_latest_witness :
    tieAuto tieRequest.entity_id ≠ []
    ∧ ∃ chosen l1 l2,
        backup_from_latest_automated tieAuto tieRequest
          = (.ok { tieRequest with backup_id := tieRequest.name },
             [.copyDbSnapshot chosen.id tieRequest.name false])
        ∧ tieAuto tieRequest.entity_id = l1 ++ chosen :: l2
        ∧ (∀ x ∈ tieAuto tieRequest.entity_id, x.createTime ≤ chosen.createTime)
        ∧ (∀ x ∈ l1, x.createTime < chosen.createTime) :=
  ⟨by decide,
   backup_from_latest_automated_selects_latest tieAuto tieRequest (by decide)⟩

/-- Helper: the instance loop stops as soon as the response carries no
Marker. -/
theorem getAllInstancesLoop_marker_none (d : Option Nat → Page DbInstance)
    (fuel : Nat) (temp : Page DbInstance) (acc : List DbInstance)
    (h : temp.marker = none) :
    getAllInstancesLoop d fuel temp acc = some acc := by
  unfold getAllInstancesLoop
  rw [h]

/-- Helper: one step of the instance loop forwards the Marker of the current
response. -/
theorem getAllInstancesLoop_marker_some (d : Option Nat → Page DbInstance)
    (fuel : Nat) (temp : Page DbInstance) (acc : List DbInstance) (m : Nat)
    (h : temp.marker = some m) :
    getAllInstancesLoop d (fuel + 1) temp acc
      = getAllInstancesLoop d fuel (d (some m)) (acc ++ (d (some m)).items) := by
  obtain ⟨it, mk⟩ := temp
  change mk = some m at h
  subst h
  rfl

/-- Helper: when page k is the last page, the loop returns the accumulator. -/
theorem getAllInstancesLoop_done (pages : List (List DbInstance)) (fuel k : Nat)
    (acc : List DbInstance) (h : ¬ k + 1 < pages.length) :
    getAllInstancesLoop (pagedDescribe pages) fuel
        (pagedDescribe pages (some k)) acc
      = some (acc ++ (pages.drop (k + 1)).flatten) := by
  have hm : (pagedDescribe pages (some k)).marker = none := by
    simp [pagedDescribe, h]
  rw [getAllInstancesLoop_marker_none _ _ _ _ hm]
  rw [List.drop_eq_nil_of_le (by omega)]
  simp

/-- Helper: with enough fuel, the loop started after fetching page k collects
all remaining pages. -/
theorem getAllInstancesLoop_drains (pages : List (List DbInstance)) :
    ∀ (fuel k : Nat) (acc : List DbInstance),
      pages.length ≤ k + 1 + fuel →
      getAllInstancesLoop (pagedDescribe pages) fuel
          (pagedDescribe pages (some k)) acc
        = some (acc ++ (pages.drop (k + 1)).flatten) := by
  intro fuel
  induction fuel with
  | zero =>
    intro k acc hle
    exact getAllInstancesLoop_done pages 0 k acc (by omega)
  | succ f ih =>
    intro k acc hle
    by_cases hk : k + 1 < pages.length
    · have hm : (pagedDescribe pages (some k)).marker = some (k + 1) := by
        simp [pagedDescribe, hk]
      rw [getAllInstancesLoop_marker_some _ _ _ _ _ hm]
      rw [ih (k + 1) (acc ++ (pagedDescribe pages (some (k + 1))).items)
        (by omega)]
      have hitems : (pagedDescribe pages (some (k + 1))).items
          = pages[k + 1] := by
        show pages.getD (k + 1) [] = pages[k + 1]
        rw [List.getD_eq_getElem?_getD, List.getElem?_eq_getElem hk]
        rfl
      rw [hitems, List.append_assoc]
      rw [List.drop_eq_getElem_cons hk, List.flatten_cons]
    · exact getAllInstancesLoop_done pages (f + 1) k acc hk

/-- Helper: with fuel at least the number of pages beyond the first,
get_all_instances fully drains the paginated endpoint. -/
theorem get_all_instances_drains (pages : List (List DbInstance)) (fuel : Nat)
    (h : pages.length ≤ fuel + 1) :
    get_all_instances (pagedDescribe pages) fuel = some pages.flatten := by
  have h0 : get_all_instances (pagedDescribe pages) fuel
      = getAllInstancesLoop (pagedDescribe pages) fuel
          (pagedDescribe pages (some 0)) ((pagedDescribe pages (some 0)).items) :=
    rfl
  rw [h0, getAllInstancesLoop_drains pages fuel 0 _ (by omega)]
  cases pages with
  | nil => rfl
  | cons p ps =>
    have : (pagedDescribe (p :: ps) (some 0)).items = p := rfl
    rw [this]
    rfl

/-- Helper: dictOf preserves exact key membership. -/
theorem dictOf_any_key (l : List (String × String)) (k : String) :
    (dictOf l).any (fun p => p.1 == k) = l.any (fun p => p.1 == k) := by
  induction l with
  | nil => rfl
  | cons hd tl ih =>
    obtain ⟨a, v⟩ := hd
    rw [dictOf]
    by_cases hdup : tl.any (fun p => p.1 == a)
    · rw [if_pos hdup, ih]
      show _ = ((a == k) || tl.any (fun p => p.1 == k))
      by_cases hak : a = k
      · subst hak
        simp [hdup]
      · simp [hak]
    · rw [if_neg hdup]
      show ((a == k) || (dictOf tl).any (fun p => p.1 == k)) = _
      rw [ih]
      rfl

/-- Helper: when every element passes the test, the conditional filterMap
keeps every element. -/
theorem length_filterMap_ite_all {α β : Type} (l : List α) (c : α → Bool)
    (g : α → β) (h : ∀ x ∈ l, c x = true) :
    (l.filterMap (fun x => if c x then some (g x) else none)).length
      = l.length := by
  induction l with
  | nil => rfl
  | cons a tl ih =>
    have ha : c a = true := h a (List.mem_cons_self a tl)
    have htl : ∀ x ∈ tl, c x = true :=
      fun x hx => h x (List.mem_cons_of_mem a hx)
    simp [List.filterMap_cons, ha, ih htl]

/-- C5: get_entities_to_backup drains instance pagination fully and filters by
exact key membership of the marker tag: across any pages, the result holds
exactly one EntityResource per instance whose tag list contains tag_name as
a key (compared by string equality, not substring or prefix matching), none
for the others; in particular when every instance is tagged the result count
equals the total instance count over all pages. -/
theorem get_entities_to_backup_exact_and_drained
    (pages : List (List DbInstance))
    (listTags : String → List (String × String))
    (local_region tag_name : String) (fuel : Nat)
    (h : pages.length ≤ fuel + 1) :
    get_entities_to_backup (pagedDescribe pages) listTags local_region fuel
        tag_name
      = some (pages.flatten.filterMap (fun inst =>
          if (listTags inst.arn).any (fun p => p.1 == tag_name) then
            some { entity_id := inst.id, region := local_region,
                   date_created := inst.createTime,
                   tags := dictOf (listTags inst.arn) }
          else none))
    ∧ ((∀ inst ∈ pages.flatten,
          (listTags inst.arn).any (fun p => p.1 == tag_name) = true) →
        ∃ es, get_entities_to_backup (pagedDescribe pages) listTags
            local_region fuel tag_name = some es
          ∧ es.length = pages.flatten.length) := by
  have hmain : get_entities_to_backup (pagedDescribe pages) listTags
      local_region fuel tag_name
      = some (pages.flatten.filterMap (fun inst =>
          if (listTags inst.arn).any (fun p => p.1 == tag_name) then
            some { entity_id := inst.id, region := local_region,
                   date_created := inst.createTime,
                   tags := dictOf (listTags inst.arn) }
          else none)) := by
    rw [get_entities_to_backup, get_all_instances_drains pages fuel h]
    simp only [dictOf_any_key]
  refine ⟨hmain, fun hall => ⟨_, hmain, ?_⟩⟩
  exact length_filterMap_ite_all pages.flatten _ _ hall

/-- Witness for C5: two tagged instances split across two pages (page size 1)
both appear in the result. -/
theorem get_entities_to_backup_exact_and_drained_witness :
    ([[(⟨"db-1", "arn-db-1", 10⟩ : DbInstance)], [⟨"db-2", "arn-db-2", 20⟩]]
        : List (List DbInstance)).length ≤ 1 + 1
    ∧ (get_entities_to_backup
        (pagedDescribe [[⟨"db-1", "arn-db-1", 10⟩], [⟨"db-2", "arn-db-2", 20⟩]])
        (fun _ => [("shelvery:run", "true")]) "us-east-1" 1 "shelvery:run"
      = some ([[(⟨"db-1", "arn-db-1", 10⟩ : DbInstance)],
               [⟨"db-2", "arn-db-2", 20⟩]].flatten.filterMap (fun inst =>
          if ((fun _ : String => [("shelvery:run", "true")]) inst.arn).any
              (fun p => p.1 == "shelvery:run") then
            some { entity_id := inst.id, region := "us-east-1",
                   date_created := inst.createTime,
                   tags := dictOf ((fun _ : String =>
                     [("shelvery:run", "true")]) inst.arn) }
          else none))
      ∧ ((∀ inst ∈ ([[(⟨"db-1", "arn-db-1", 10⟩ : DbInstance)],
              [⟨"db-2", "arn-db-2", 20⟩]] : List (List DbInstance)).flatten,
            (((fun _ : String => [("shelvery:run", "true")]) inst.arn).any
              (fun p => p.1 == "shelvery:run")) = true) →
          ∃ es, get_entities_to_backup
              (pagedDescribe [[⟨"db-1", "arn-db-1", 10⟩],
                [⟨"db-2", "arn-db-2", 20⟩]])
              (fun _ => [("shelvery:run", "true")]) "us-east-1" 1
              "shelvery:run" = some es
            ∧ es.length = ([[(⟨"db-1", "arn-db-1", 10⟩ : DbInstance)],
                [⟨"db-2", "arn-db-2", 20⟩]]
                  : List (List DbInstance)).flatten.length)) :=
  ⟨by decide,
   get_entities_to_backup_exact_and_drained
     [[⟨"db-1", "arn-db-1", 10⟩], [⟨"db-2", "arn-db-2", 20⟩]]
     (fun _ => [("shelvery:run", "true")]) "us-east-1" "shelvery:run" 1
     (by decide)⟩

/-- C2 (code bug): calling backup_resource in COPY_AUTOMATED_SNAPSHOT mode
when the provider reports no automated snapshots for the entity crashes with
Python's IndexError at the unguarded auto_snapshots[0] access (the TODO in
the source) instead of a dedicated NoAutomatedSnapshotError; no provider
mutation is issued before the failure (the copy call is never reached). -/
theorem backup_resource_copy_automated_no_snapshots :
    backup_resource RDS_COPY_AUTOMATED_SNAPSHOT (fun _ => []) noAutoRequest
      = (.error .indexError, []) := by
  rfl

/-- C3 (code bug): delete_backup issues the provider delete with the source
entity's identifier (DBInstanceIdentifier=backup_resource.entity_id), not
with the backup's own backup_id: on a descriptor whose backup_id differs
from its entity_id, the identifier sent to the provider is the entity's. -/
theorem delete_backup_uses_entity_id :
    delete_backup deleteExample = [.deleteDbSnapshot "db-1"]
      ∧ deleteExample.backup_id = "db-1-20240101"
      ∧ ("db-1" : String) ≠ "db-1-20240101" := by
  refine ⟨rfl, rfl, ?_⟩
  decide

/-- C4: for every configured mode other than CREATE_SNAPSHOT and
COPY_AUTOMATED_SNAPSHOT, backup_resource fails with the distinct
configuration-error kind and performs no provider mutation (the trace is
empty). -/
theorem backup_resource_unknown_mode_configuration_error
    (rds_mode : String) (describeAuto : String → List Snapshot)
    (request : BackupResource)
    (h1 : rds_mode ≠ RDS_CREATE_SNAPSHOT)
    (h2 : rds_mode ≠ RDS_COPY_AUTOMATED_SNAPSHOT) :
    backup_resource rds_mode describeAuto request
      = (.error .configurationError, []) := by
  have e1 : (rds_mode == RDS_CREATE_SNAPSHOT) = false := by
    simp [h1]
  have e2 : (rds_mode == RDS_COPY_AUTOMATED_SNAPSHOT) = false := by
    simp [h2]
  simp [backup_resource, e1, e2]

/-- Witness for C4 at the concrete mode "RDS_UNKNOWN_MODE". -/
theorem backup_resource_unknown_mode_configuration_error_witness :
    ("RDS_UNKNOWN_MODE" ≠ RDS_CREATE_SNAPSHOT)
      ∧ ("RDS_UNKNOWN_MODE" ≠ RDS_COPY_AUTOMATED_SNAPSHOT)
      ∧ backup_resource "RDS_UNKNOWN_MODE" (fun _ => []) unknownModeRequest
          = (.error .configurationError, []) :=
  ⟨by decide, by decide,
   backup_resource_unknown_mode_configuration_error "RDS_UNKNOWN_MODE"
     (fun _ => []) unknownModeRequest (by decide) (by decide)⟩

/-- C7: in CREATE_SNAPSHOT mode, backup_resource issues create_db_snapshot
with the new artifact's provider-side id set to the request's name, and
returns the descriptor with backup_id equal to that name. -/
theorem backup_resource_create_mode_backup_id_eq_name
    (describeAuto : String → List Snapshot) (request : BackupResource) :
    backup_resource RDS_CREATE_SNAPSHOT describeAuto request
      = (.ok { request with backup_id := request.name },
         [.createDbSnapshot request.name request.entity_id]) := by
  simp [backup_resource, backup_from_instance]

/-- Helper: a key that no pair carries is not found by lookup. -/
theorem lookup_eq_none_of_any_false (l : List (String × String)) (k : String)
    (h : l.any (fun p => p.1 == k) = false) : l.lookup k = none := by
  induction l with
  | nil => rfl
  | cons hd tl ih =>
    obtain ⟨a, v⟩ := hd
    rw [List.any_cons] at h
    rw [Bool.or_eq_false_iff] at h
    obtain ⟨h1, h2⟩ := h
    have h1' : (k == a) = false := by
      have hne : a ≠ k := by simpa using h1
      have hne' : k ≠ a := fun e => hne e.symm
      simp [hne']
    simp [List.lookup, h1', ih h2]

/-- Helper: on a pair list with no duplicate keys, dictOf is the identity. -/
theorem dictOf_nodup (l : List (String × String))
    (h : (l.map Prod.fst).Nodup) : dictOf l = l := by
  induction l with
  | nil => rfl
  | cons hd tl ih =>
    obtain ⟨a, v⟩ := hd
    rw [List.map_cons, List.nodup_cons] at h
    obtain ⟨hna, htl⟩ := h
    have hany : tl.any (fun p => p.1 == a) = false := by
      cases hcase : tl.any (fun p => p.1 == a) with
      | false => rfl
      | true =>
        obtain ⟨p, hp, hpa⟩ := List.any_eq_true.mp hcase
        have hp1 : p.1 = a := by simpa using hpa
        have hm : p.1 ∈ tl.map Prod.fst := List.mem_map_of_mem Prod.fst hp
        rw [hp1] at hm
        exact absurd hm hna
    simp [dictOf, hany, ih htl]

/-- Helper: rebuilding the Key/Value list from a dict with unique keys gives
back the same list. -/
theorem map_lookup_self (l : List (String × String))
    (h : (l.map Prod.fst).Nodup) :
    l.map (fun p => (p.1, (l.lookup p.1).getD p.2)) = l := by
  induction l with
  | nil => rfl
  | cons hd tl ih =>
    obtain ⟨a, v⟩ := hd
    rw [List.map_cons, List.nodup_cons] at h
    obtain ⟨hna, htl⟩ := h
    rw [List.map_cons]
    have hhead : (a, (List.lookup a ((a, v) :: tl)).getD v) = (a, v) := by
      simp [List.lookup]
    have hstep : ∀ p ∈ tl,
        (fun p => (p.1, (List.lookup p.1 ((a, v) :: tl)).getD p.2)) p
          = (fun p => (p.1, (List.lookup p.1 tl).getD p.2)) p := by
      intro p hp
      have hne : p.1 ≠ a := by
        intro e
        have hm : p.1 ∈ tl.map Prod.fst := List.mem_map_of_mem Prod.fst hp
        rw [e] at hm
        exact hna hm
      have hbe : (p.1 == a) = false := by simp [hne]
      simp [List.lookup, hbe]
    rw [hhead, List.map_congr_left hstep, ih htl]

/-- Helper: upserting a fresh, duplicate-free batch of tags onto a resource
appends them unchanged. -/
theorem foldl_upsertTag_fresh :
    ∀ (l acc : List (String × String)),
      (∀ p ∈ l, acc.any (fun q => q.1 == p.1) = false) →
      (l.map Prod.fst).Nodup →
      l.foldl upsertTag acc = acc ++ l := by
  intro l
  induction l with
  | nil => intro acc _ _; simp
  | cons t tl ih =>
    intro acc hfresh hnodup
    rw [List.map_cons, List.nodup_cons] at hnodup
    obtain ⟨hnt, htl⟩ := hnodup
    rw [List.foldl_cons]
    have ht : upsertTag acc t = acc ++ [t] := by
      have hf := hfresh t (List.mem_cons_self t tl)
      simp [upsertTag, hf]
    rw [ht]
    have hfresh' : ∀ p ∈ tl, (acc ++ [t]).any (fun q => q.1 == p.1) = false := by
      intro p hp
      have h1 := hfresh p (List.mem_cons_of_mem t hp)
      have h2 : (t.1 == p.1) = false := by
        have hne : t.1 ≠ p.1 := by
          intro e
          have hm : p.1 ∈ tl.map Prod.fst := List.mem_map_of_mem Prod.fst hp
          rw [← e] at hm
          exact hnt hm
        simp [hne]
      simp [List.any_append, h1, h2]
    rw [ih (acc ++ [t]) hfresh' htl]
    simp

/-- C8: on a catalog where the descriptor's backup_id resolves to an artifact
with no prior tags, tag_backup_resource writes the descriptor's provenance
tags (which include the required shelvery:tag_name entry and have unique
keys), and a subsequent get_backup_resource on the same backup_id against
the updated catalog reconstructs a BackupResource whose tags mapping equals
the tags that were written. -/
theorem tag_then_get_backup_resource_roundtrip
    (st : RdsState) (b : BackupResource) (snap : Snapshot) (rg : String)
    (hfind : st.snapshots.filter (fun s => s.id == b.backup_id) = [snap])
    (hinit : st.resourceTags snap.arn = [])
    (hnodup : (b.tags.map Prod.fst).Nodup)
    (hprov : (b.tags.lookup "shelvery:tag_name").isSome) :
    ∃ trace r,
      tag_backup_resource (awsDescribeById st) b = (.ok (), trace)
      ∧ get_backup_resource (awsDescribeById (applyCalls st trace))
          (awsListTags (applyCalls st trace)) rg b.backup_id = .ok r
      ∧ r.tags = b.tags := by
  obtain ⟨tn, htn⟩ := Option.isSome_iff_exists.mp hprov
  have hdesc : awsDescribeById st b.backup_id = .ok [snap] := by
    rw [awsDescribeById, hfind]
  have hwritten :
      b.tags.map (fun p => (p.1, (b.tags.lookup p.1).getD p.2)) = b.tags :=
    map_lookup_self b.tags hnodup
  have htag : tag_backup_resource (awsDescribeById st) b
      = (.ok (), [.addTagsToResource snap.arn b.tags]) := by
    simp [tag_backup_resource, hdesc, hwritten]
  refine ⟨[.addTagsToResource snap.arn b.tags],
          BackupResource.construct tn b.backup_id b.tags, htag, ?_, rfl⟩
  have hdesc' :
      awsDescribeById (applyCalls st [.addTagsToResource snap.arn b.tags])
        b.backup_id = .ok [snap] := by
    rw [awsDescribeById]
    show (match st.snapshots.filter (fun s => s.id == b.backup_id) with
      | [] => Except.error (RdsError.dbSnapshotNotFound b.backup_id)
      | s :: rest => Except.ok (s :: rest)) = .ok [snap]
    rw [hfind]
  have htags' :
      awsListTags (applyCalls st [.addTagsToResource snap.arn b.tags]) snap.arn
        = b.tags := by
    show (if snap.arn == snap.arn then
            b.tags.foldl upsertTag (st.resourceTags snap.arn)
          else st.resourceTags snap.arn) = b.tags
    rw [if_pos (by simp), hinit]
    rw [foldl_upsertTag_fresh b.tags [] (fun p _ => rfl) hnodup]
    rfl
  simp [get_backup_resource, hdesc', htags', dictOf_nodup b.tags hnodup, htn]

/-- Witness for C8 on a concrete catalog and descriptor. -/
theorem tag_then_get_backup_resource_roundtrip_witness :
    rtState.snapshots.filter (fun s => s.id == rtBackup.backup_id) = [rtSnap]
    ∧ ∃ trace r,
        tag_backup_resource (awsDescribeById rtState) rtBackup = (.ok (), trace)
        ∧ get_backup_resource (awsDescribeById (applyCalls rtState trace))
            (awsListTags (applyCalls rtState trace)) "us-east-1"
            rtBackup.backup_id = .ok r
        ∧ r.tags = rtBackup.tags :=
  ⟨by decide,
   tag_then_get_backup_resource_roundtrip rtState rtBackup rtSnap "us-east-1"
     (by decide) rfl (by decide) (by decide)⟩

/-- C9: get_backup_resource fails with the provider's snapshot-not-found error
kind when the backup_id does not resolve to an artifact in the region, and
with the distinct missing-provenance error kind (the KeyError on the
shelvery:tag_name dict access) when the artifact exists but its tag set
lacks that key; the two error kinds are distinct values. -/
theorem get_backup_resource_error_kinds :
    (∀ (st : RdsState) (lt : String → List (String × String)) (rg id : String),
        st.snapshots.filter (fun s => s.id == id) = [] →
        get_backup_resource (awsDescribeById st) lt rg id
          = .error (.dbSnapshotNotFound id))
    ∧ (∀ (st : RdsState) (rg id : String) (snap : Snapshot)
          (rest : List Snapshot),
        st.snapshots.filter (fun s => s.id == id) = snap :: rest →
        (st.resourceTags snap.arn).any
            (fun p => p.1 == "shelvery:tag_name") = false →
        get_backup_resource (awsDescribeById st) (awsListTags st) rg id
          = .error (.keyError "shelvery:tag_name"))
    ∧ (∀ i k : String, RdsError.dbSnapshotNotFound i ≠ RdsError.keyError k) := by
  refine ⟨?_, ?_, ?_⟩
  · intro st lt rg id h
    have hdesc : awsDescribeById st id = .error (.dbSnapshotNotFound id) := by
      rw [awsDescribeById, h]
    simp [get_backup_resource, hdesc]
  · intro st rg id snap rest h hany
    have hdesc : awsDescribeById st id = .ok (snap :: rest) := by
      rw [awsDescribeById, h]
    have hnone : (dictOf (awsListTags st snap.arn)).lookup "shelvery:tag_name"
        = none := by
      apply lookup_eq_none_of_any_false
      rw [dictOf_any_key]
      exact hany
    simp [get_backup_resource, hdesc, hnone]
  · intro i k h
    exact RdsError.noConfusion h

/-- Witness for C9: a missing id faults as not-found, an untagged artifact
faults as the distinct missing-provenance kind. -/
theorem get_backup_resource_error_kinds_witness :
    get_backup_resource (awsDescribeById errState) (fun _ => []) "us-east-1"
        "missing-id" = .error (.dbSnapshotNotFound "missing-id")
    ∧ get_backup_resource (awsDescribeById errState) (awsListTags errState)
        "us-east-1" "bk-2" = .error (.keyError "shelvery:tag_name") :=
  ⟨get_backup_resource_error_kinds.1 errState (fun _ => []) "us-east-1"
     "missing-id" (by decide),
   get_backup_resource_error_kinds.2.1 errState "us-east-1" "bk-2"
     ⟨"bk-2", "arn-bk-2", "available", 1⟩ [] (by decide) (by decide)⟩

/-- C10 (implicit): is_backup_available, tag_backup_resource,
copy_backup_to_region and get_backup_resource all index the first element of
the describe-snapshots response without an emptiness check: on a response
with zero snapshots each fails with the out-of-bounds IndexError, and
whenever the backup_id resolves to at least one snapshot - the unstated
precondition - none of them can fail with IndexError. -/
theorem unchecked_head_access_precondition :
    (∀ rg id : String,
        is_backup_available (fun _ => .ok []) rg id = .error .indexError)
    ∧ (∀ b : BackupResource,
        tag_backup_resource (fun _ => .ok []) b = (.error .indexError, []))
    ∧ (∀ id rg : String,
        copy_backup_to_region (fun _ => .ok []) id rg = (.error .indexError, []))
    ∧ (∀ (lt : String → List (String × String)) (rg id : String),
        get_backup_resource (fun _ => .ok []) lt rg id = .error .indexError)
    ∧ (∀ (describeById : String → Except RdsError (List Snapshot))
          (rg id : String) (s : Snapshot) (rest : List Snapshot)
          (b : BackupResource) (lt : String → List (String × String)),
        describeById id = .ok (s :: rest) → b.backup_id = id →
        is_backup_available describeById rg id ≠ .error .indexError
        ∧ (tag_backup_resource describeById b).1 ≠ .error .indexError
        ∧ (copy_backup_to_region describeById id rg).1 ≠ .error .indexError
        ∧ get_backup_resource describeById lt rg id ≠ .error .indexError) := by
  refine ⟨fun rg id => rfl, fun b => rfl, fun id rg => rfl,
          fun lt rg id => rfl, ?_⟩
  intro d rg id s rest b lt hd hb
  subst hb
  refine ⟨?_, ?_, ?_, ?_⟩
  · simp [is_backup_available, hd]
  · simp [tag_backup_resource, hd]
  · simp [copy_backup_to_region, hd]
  · simp only [get_backup_resource, hd]
    cases hx : (dictOf (lt s.arn)).lookup "shelvery:tag_name" <;> simp [hx]

/-- Witness for C10: the empty response triggers the IndexError, a one-element
response rules it out. -/
theorem unchecked_head_access_precondition_witness :
    is_backup_available (fun _ => .ok []) "us-east-1" "bk-3"
        = .error .indexError
    ∧ is_backup_available (fun _ => .ok [availSnap]) "us-east-1" "bk-3"
        ≠ .error .indexError :=
  ⟨unchecked_head_access_precondition.1 "us-east-1" "bk-3",
   (unchecked_head_access_precondition.2.2.2.2 (fun _ => .ok [availSnap])
      "us-east-1" "bk-3" availSnap [] c10Backup (fun _ => []) rfl rfl).1⟩

end Shelvery
